import Mathlib

/-! Verification of the SuperImage upscaling core.

Shallow embedding of:
  - the Real-ESRGAN session lifecycle in scripts/src/models/real_esrgan.py
    (catalog lookup, weight resolution, lazy upsampler construction, the
    upscale call with its buffer lifecycle, cleanup);
  - the CLI driver upscale_command in scripts/src/cli.py;
  - the GUI batch worker and processor in app/src/core/image_processor.py;
  - a spec-level model of the tiled-upscaler geometry (the tiling engine
    itself lives in the external realesrgan dependency).

Filesystem, network and backend effects are made explicit: an environment
record says which external step succeeds, and functions return the values
the Python code returns together with the session state they leave behind.
-/

/-- One entry of the static model catalog MODEL_CONFIGS in real_esrgan.py. -/
structure ModelConfig where
  url : String
  scale : Nat
  num_block : Nat
deriving DecidableEq

/-- The static catalog from real_esrgan.py: two models, each with a download
url, intrinsic scale factor and architecture depth. -/
def MODEL_CONFIGS : List (String × ModelConfig) :=
  [("RealESRGAN_x4plus",
    ⟨("https://github.com/xinntao/Real-ESRGAN/releases/download/v0.1.0/RealESRGAN_x4plus.pth"), 4, 23⟩),
   ("RealESRGAN_x4plus_anime_6B",
    ⟨("https://github.com/xinntao/Real-ESRGAN/releases/download/v0.2.2.4/RealESRGAN_x4plus_anime_6B.pth"), 4, 6⟩)]

/-- External effects RealESRGANUpscaler.__init__ may perform, recorded in
order: the cache-directory mkdir; a network download. -/
inductive Effect where
  | mkdirCacheDir : Effect
  | download : String → Effect
deriving DecidableEq

/-- RealESRGANUpscaler.__init__ (real_esrgan.py lines 51-90): the model name
is validated against MODEL_CONFIGS before anything else; an unknown name
raises ValueError (modelled as Except.error) having performed no filesystem
or network effect; a known name stores the config and creates the cache
directory (the only effect). -/
def RealESRGANUpscaler.init (model_name : String) :
    Except String ModelConfig × List Effect :=
  match MODEL_CONFIGS.lookup model_name with
  | none => (Except.error ("Unknown model: " ++ model_name), [])
  | some cfg => (Except.ok cfg, [Effect.mkdirCacheDir])

/-- The deterministic weights-cache path computed in _get_model_path:
model_cache_dir / (model_name ++ ".pth"). -/
def weightsPath (cache_dir model_name : String) : String :=
  cache_dir ++ "/" ++ model_name ++ ".pth"

/-- RealESRGANUpscaler._get_model_path (real_esrgan.py lines 92-109) over an
explicit filesystem, given as the list of existing paths. If the cache path
exists it is returned at once (no download). Otherwise the weights are
fetched from the url: on network success the file now exists and the path is
returned, on failure a RuntimeError is raised (Except.error). The Bool in
the result records whether a network download happened on this call. -/
def RealESRGANUpscaler.get_model_path (cache_dir model_name url : String)
    (fs : List String) (netOk : Bool) :
    Except String (String × List String × Bool) :=
  let model_path := weightsPath cache_dir model_name
  if model_path ∈ fs then Except.ok (model_path, fs, false)
  else if netOk then Except.ok (model_path, model_path :: fs, true)
  else Except.error ("Failed to download model from " ++ url)

/-- The per-call tensors the RealESRGANer backend stores on itself during
enhance: self.img (set by pre_process) and self.output (set by the tile
loop). real_esrgan.py lines 215-222 delete both after a successful enhance. -/
structure Upsampler where
  imgHeld : Bool
  outputHeld : Bool
deriving DecidableEq

/-- The state a RealESRGANUpscaler session carries across calls: the lazily
constructed upsampler, or none before the first load / after cleanup. -/
structure SessionState where
  upsampler : Option Upsampler
deriving DecidableEq

/-- Outcome of each external step an upscale call performs, in program
order: input existence check, output-directory mkdir, weight download,
model load, image decode, backend enhance, image encode. -/
structure RunEnv where
  inputExists : Bool
  mkdirOk : Bool
  downloadOk : Bool
  loadOk : Bool
  decodeOk : Bool
  enhanceOk : Bool
  encodeOk : Bool
deriving DecidableEq

/-- RealESRGANUpscaler._load_upsampler (real_esrgan.py lines 111-155): a
no-op when the upsampler is already built; otherwise resolves weights and
constructs a fresh RealESRGANer (holding no per-call tensors), raising
RuntimeError (Except.error) when the download or the model load fails. -/
def RealESRGANUpscaler.load_upsampler (env : RunEnv) (st : SessionState) :
    Except Unit SessionState :=
  match st.upsampler with
  | some _ => Except.ok st
  | none =>
      if env.downloadOk && env.loadOk then Except.ok ⟨some ⟨false, false⟩⟩
      else Except.error ()

/-- RealESRGANUpscaler.upscale (real_esrgan.py lines 157-247). Mirrors the
control flow path by path: a missing input returns False before the try
block; inside the try block, a raise of mkdir or of _load_upsampler is
caught by the except handler, which returns False leaving the session state
as it was at the raise; a decode failure (imdecode returning None) returns
False; enhance first stores the backend img tensor, then on success stores
the output tensor, after which lines 218-222 clear both; an exception
escaping enhance is caught with the stored tensors still held; an encode
failure returns False after the tensors were cleared; the catch-all except
Exception handler means the function returns a Bool on every path and never
propagates an exception. -/
def RealESRGANUpscaler.upscale (env : RunEnv) (st : SessionState) :
    Bool × SessionState :=
  if !env.inputExists then (false, st)
  else if !env.mkdirOk then (false, st)
  else
    match RealESRGANUpscaler.load_upsampler env st with
    | Except.error _ => (false, st)
    | Except.ok st1 =>
        if !env.decodeOk then (false, st1)
        else
          let st2 : SessionState :=
            ⟨st1.upsampler.map (fun u => { u with imgHeld := true })⟩
          if !env.enhanceOk then (false, st2)
          else
            let st3 : SessionState :=
              ⟨st2.upsampler.map (fun u => { u with outputHeld := true })⟩
            let st4 : SessionState :=
              ⟨st3.upsampler.map (fun _ => ⟨false, false⟩)⟩
            if !env.encodeOk then (false, st4)
            else (true, st4)

/-- RealESRGANUpscaler.cleanup (real_esrgan.py lines 249-256): deletes the
upsampler reference and sets it to None, whatever state it was in. -/
def RealESRGANUpscaler.cleanup (_ : SessionState) : SessionState := ⟨none⟩

/-- Environment of one CLI invocation of upscale_command (cli.py lines
32-75): the two pre-checks on the input path, whether a KeyboardInterrupt
arrives during the upscale call, and the environment of the upscale call
itself. -/
structure CliEnv where
  inputExists : Bool
  inputIsFile : Bool
  interrupted : Bool
  runEnv : RunEnv
deriving DecidableEq

/-- Observable outcome of upscale_command: the process exit code and how
many times upscaler.cleanup was invoked. -/
structure CliResult where
  exitCode : Nat
  cleanupCalls : Nat
deriving DecidableEq

/-- cli.upscale_command (cli.py lines 32-75): the existence and is-file
checks return exit code 1 before the upscaler is constructed (so cleanup is
not called there); after construction the try/finally guarantees exactly one
cleanup call on the success path, the False-return path and the
KeyboardInterrupt path alike. RealESRGANUpscaler.upscale itself never
raises, so the generic except branch is unreachable. -/
def upscale_command (env : CliEnv) (st : SessionState) : CliResult :=
  if !env.inputExists then ⟨1, 0⟩
  else if !env.inputIsFile then ⟨1, 0⟩
  else if env.interrupted then ⟨1, 1⟩
  else if (RealESRGANUpscaler.upscale env.runEnv st).1 then ⟨0, 1⟩
  else ⟨1, 1⟩

/-- Index of the last dot in a list of characters, if any. -/
def rfindDot : List Char → Option Nat
  | [] => none
  | c :: cs =>
      match rfindDot cs with
      | some i => some (i + 1)
      | none => if c == ('.' : Char) then some 0 else none

/-- Python pathlib stem/suffix semantics on a final path component: split at
the last dot when its index i satisfies 0 < i < len - 1, else the suffix is
empty and the stem is the whole name. -/
def pathSplitExt (name : String) : String × String :=
  let cs := name.toList
  match rfindDot cs with
  | some i =>
      if 0 < i ∧ i < cs.length - 1 then (String.mk (cs.take i), String.mk (cs.drop i))
      else (name, "")
  | none => (name, "")

/-- pathlib Path.stem of a filename. -/
def Pathlib.stem (name : String) : String := (pathSplitExt name).1

/-- pathlib Path.suffix of a filename. -/
def Pathlib.suffix (name : String) : String := (pathSplitExt name).2

/-- One input of a batch: its directory, its final filename component, and
whether upscaler.upscale succeeds on it. -/
structure BatchItem where
  dir : String
  name : String
  ok : Bool
deriving DecidableEq

/-- The full input path of a batch item. -/
def BatchItem.src (it : BatchItem) : String := it.dir ++ "/" ++ it.name

/-- The derived output path of BatchUpscaleWorker.run (image_processor.py
line 122): output_dir / (stem ++ "_upscaled" ++ suffix) of the input
filename. -/
def outputFile (output_dir : String) (it : BatchItem) : String :=
  output_dir ++ "/" ++ Pathlib.stem it.name ++ "_upscaled" ++ Pathlib.suffix it.name

/-- Environment of one BatchUpscaleWorker.run call: whether the upscaler
construction and output-directory mkdir succeed, and whether an exception is
raised while processing a given item index (e.g. a signal-emission failure
or an external interrupt there), aborting the loop. -/
structure BatchEnv where
  initOk : Bool
  abortAt : Option Nat
deriving DecidableEq

/-- Result of the per-item loop of BatchUpscaleWorker.run: the filenames
attempted in order, the (output path, source path) writes of the successful
items in order, the success count, and whether an exception aborted the
loop. -/
structure LoopResult where
  attempted : List String
  writes : List (String × String)
  success_count : Nat
  aborted : Bool
deriving DecidableEq

/-- The for-loop of BatchUpscaleWorker.run (image_processor.py lines
120-137): items are processed strictly in order; a failed item only leaves
the success count unchanged and the loop continues; an exception at an item
index aborts the loop there. -/
def batchLoop (output_dir : String) :
    List BatchItem → Nat → Option Nat → LoopResult
  | [], _, _ => ⟨[], [], 0, false⟩
  | it :: rest, idx, abortAt =>
      if abortAt = some idx then ⟨[], [], 0, true⟩
      else
        let r := batchLoop output_dir rest (idx + 1) abortAt
        ⟨it.name :: r.attempted,
         (if it.ok then (outputFile output_dir it, BatchItem.src it) :: r.writes
          else r.writes),
         (if it.ok then r.success_count + 1 else r.success_count),
         r.aborted⟩

/-- Observable outcome of BatchUpscaleWorker.run: the attempted filenames,
the writes performed, the success count, the payload of the finished signal,
whether the error signal fired, and whether upscaler.cleanup was invoked. -/
structure BatchOutput where
  attempted : List String
  writes : List (String × String)
  success_count : Nat
  finished : Nat × Nat
  errored : Bool
  cleanupCalled : Bool
deriving DecidableEq

/-- BatchUpscaleWorker.run (image_processor.py lines 102-146): on a
construction/mkdir failure the except handler emits the error signal and
finished(0, total), without cleanup; when an exception aborts the loop the
same handler runs and the upscaler.cleanup() call at line 139, which sits
inside the try block after the loop rather than in a finally, is skipped;
only when the loop completes normally is cleanup invoked and
finished(success_count, total) emitted. -/
def BatchUpscaleWorker.run (env : BatchEnv) (output_dir : String)
    (items : List BatchItem) : BatchOutput :=
  let total := items.length
  if !env.initOk then ⟨[], [], 0, (0, total), true, false⟩
  else
    let r := batchLoop output_dir items 0 env.abortAt
    if r.aborted then ⟨r.attempted, r.writes, r.success_count, (0, total), true, false⟩
    else ⟨r.attempted, r.writes, r.success_count, (r.success_count, total), false, true⟩

/-- The content a path holds after an ordered list of (path, value) writes:
the value of the last write to that path, if any. -/
def lastWrite (ws : List (String × String)) (p : String) : Option String :=
  match ws with
  | [] => none
  | w :: rest =>
      match lastWrite rest p with
      | some v => some v
      | none => if w.1 = p then some w.2 else none

/-- The worker slot of ImageProcessor: present once a worker was created,
with its QThread.isRunning() status. -/
structure WorkerRef where
  running : Bool
deriving DecidableEq

/-- The ImageProcessor state relevant to the busy check: self.worker. -/
structure ImageProcessor where
  worker : Option WorkerRef
deriving DecidableEq

/-- What a dispatch call did: reject with an error emission, or start a new
worker. -/
inductive Dispatch where
  | rejected : String → Dispatch
  | started : Dispatch
deriving DecidableEq

/-- The busy test of image_processor.py lines 175 and 199:
self.worker and self.worker.isRunning(). -/
def ImageProcessor.isBusyCheck (p : ImageProcessor) : Bool :=
  match p.worker with
  | some w => w.running
  | none => false

/-- ImageProcessor.upscale_single (image_processor.py lines 173-195): when a
worker is already running it emits the error signal and returns at once,
leaving the worker slot untouched; otherwise it creates and starts a new
worker. -/
def ImageProcessor.upscale_single (p : ImageProcessor) :
    ImageProcessor × Dispatch :=
  if p.isBusyCheck then (p, Dispatch.rejected ("Another operation is already running"))
  else (⟨some ⟨true⟩⟩, Dispatch.started)

/-- ImageProcessor.upscale_batch (image_processor.py lines 197-219): same
busy policy as upscale_single. -/
def ImageProcessor.upscale_batch (p : ImageProcessor) :
    ImageProcessor × Dispatch :=
  if p.isBusyCheck then (p, Dispatch.rejected ("Another operation is already running"))
  else (⟨some ⟨true⟩⟩, Dispatch.started)

/-- Modelled from the spec: the tiled upscaler geometry of section 4.2. The
tiling engine itself is the external realesrgan dependency, not code of this
repository, so its tile grid is modelled from the specification. Number of
tiles along one axis of extent W for tile size t, ceil(W / t). -/
def numTiles (W t : Nat) : Nat := (W + t - 1) / t

/-- Modelled from the spec: tile count along one axis; zero tile size means
the whole image is a single tile. -/
def tileCount (W t : Nat) : Nat := if t = 0 then 1 else numTiles W t

/-- Modelled from the spec: start of the core (pre-pad) region of tile x
along one axis. -/
def coreStart (t x : Nat) : Nat := if t = 0 then 0 else x * t

/-- Modelled from the spec: end (exclusive) of the core region of tile x
along an axis of extent W, clamped to the image bound. -/
def coreEnd (W t x : Nat) : Nat := if t = 0 then W else min ((x + 1) * t) W

/-- Modelled from the spec: start of the padded input region of tile x,
extended by tile_pad p and clamped at 0. -/
def padStart (t p x : Nat) : Nat := if t = 0 then 0 else x * t - p

/-- Modelled from the spec: end (exclusive) of the padded input region of
tile x, extended by tile_pad p and clamped to the image bound. -/
def padEnd (W t p x : Nat) : Nat := if t = 0 then W else min ((x + 1) * t + p) W

/-- Modelled from the spec: final output dimensions of section 4.2 step 4.
The stitched image has s times the original dimensions, s being the model
intrinsic scale; when the requested outscale differs from s the stitched
result is resampled to exactly round(outscale * W) by round(outscale * H). -/
def finalDims (W H s : Nat) (oscale : ℚ) : ℤ × ℤ :=
  if oscale = (s : ℚ) then (((s * W : ℕ) : ℤ), ((s * H : ℕ) : ℤ))
  else (round (oscale * (W : ℚ)), round (oscale * (H : ℚ)))

/-- Environments used as concrete test points. -/
def allOkEnv : RunEnv := ⟨true, true, true, true, true, true, true⟩

/-- The run environment in which the image decode fails. -/
def decodeFailEnv : RunEnv := ⟨true, true, true, true, false, true, true⟩

/-- The run environment in which the backend enhance call raises. -/
def enhanceFailEnv : RunEnv := ⟨true, true, true, true, true, false, true⟩

/-- A fresh session, before the first load. -/
def freshState : SessionState := ⟨none⟩

/-- A session whose upsampler is built and holds no per-call tensors. -/
def readyState : SessionState := ⟨some ⟨false, false⟩⟩

/-- A CLI environment whose pre-checks pass and upscale succeeds. -/
def cliOkEnv : CliEnv := ⟨true, true, false, allOkEnv⟩

/-- A batch environment with successful construction and no abort. -/
def cleanBatchEnv : BatchEnv := ⟨true, none⟩

/-- A batch environment in which an exception aborts the loop at index 1. -/
def abortedBatchEnv : BatchEnv := ⟨true, some 1⟩

/-- Three batch items that all succeed. -/
def threeItems : List BatchItem :=
  [⟨("in"), ("a.png"), true⟩, ⟨("in"), ("b.png"), true⟩, ⟨("in"), ("c.png"), true⟩]

/-- Five batch items of which the third is unreadable. -/
def fiveItemsA : List BatchItem :=
  [⟨("in"), ("i1.png"), true⟩, ⟨("in"), ("i2.png"), true⟩,
   ⟨("in"), ("item3.png"), false⟩, ⟨("in"), ("i4.png"), true⟩,
   ⟨("in"), ("i5.png"), true⟩]

/-- The same five items except that the unreadable third has another name. -/
def fiveItemsB : List BatchItem :=
  [⟨("in"), ("i1.png"), true⟩, ⟨("in"), ("i2.png"), true⟩,
   ⟨("in"), ("other3.png"), false⟩, ⟨("in"), ("i4.png"), true⟩,
   ⟨("in"), ("i5.png"), true⟩]

/-- A batch item x.png in a first directory. -/
def itemX1 : BatchItem := ⟨("dir1"), ("x.png"), true⟩

/-- A batch item with the same filename x.png in another directory. -/
def itemX2 : BatchItem := ⟨("dir2"), ("x.png"), true⟩

/-- Helper: characterization of the upscale return flag over all
environments and session states. -/
theorem upscale_fst_eq_true_iff (env : RunEnv) (st : SessionState) :
    (RealESRGANUpscaler.upscale env st).1 = true ↔
      env.inputExists = true ∧ env.mkdirOk = true ∧
      (st.upsampler = none → env.downloadOk = true ∧ env.loadOk = true) ∧
      env.decodeOk = true ∧ env.enhanceOk = true ∧ env.encodeOk = true := by
  rcases env with ⟨ie, mo, dl, lo, de, en, ec⟩
  rcases st with ⟨us⟩
  rcases us with _ | u <;>
    cases ie <;> cases mo <;> cases dl <;> cases lo <;> cases de <;>
    cases en <;> cases ec <;>
    simp [RealESRGANUpscaler.upscale, RealESRGANUpscaler.load_upsampler]

/-- C9: RealESRGANUpscaler.upscale is total over its failure modes: a
missing input, a failed weight download or model load on a fresh session, an
undecodable input, a backend inference failure and an encode failure all
make it return False (never an exception, as the embedding into a total
Bool-valued function reflects the catch-all except handler). -/
theorem c9_upscale_returns_false_on_every_failure_mode
    (env : RunEnv) (st : SessionState)
    (h : env.inputExists = false ∨
         (st.upsampler = none ∧ (env.downloadOk = false ∨ env.loadOk = false)) ∨
         env.decodeOk = false ∨ env.enhanceOk = false ∨ env.encodeOk = false) :
    (RealESRGANUpscaler.upscale env st).1 = false := by
  rcases ha : (RealESRGANUpscaler.upscale env st).1 with _ | _
  · rfl
  · rcases (upscale_fst_eq_true_iff env st).mp ha with ⟨h1, _, h3, h4, h5, h6⟩
    rcases h with h | ⟨hn, hd⟩ | h | h | h
    · exact absurd h1 (by simp [h])
    · rcases h3 hn with ⟨hdl, hlo⟩
      rcases hd with hd | hd
      · exact absurd hdl (by simp [hd])
      · exact absurd hlo (by simp [hd])
    · exact absurd h4 (by simp [h])
    · exact absurd h5 (by simp [h])
    · exact absurd h6 (by simp [h])

/-- Witness for C9 at a concrete failing input: a decode failure on a fresh
session returns False. -/
theorem c9_upscale_failure_witness :
    (decodeFailEnv.inputExists = false ∨
     (freshState.upsampler = none ∧
       (decodeFailEnv.downloadOk = false ∨ decodeFailEnv.loadOk = false)) ∨
     decodeFailEnv.decodeOk = false ∨ decodeFailEnv.enhanceOk = false ∨
     decodeFailEnv.encodeOk = false) ∧
    (RealESRGANUpscaler.upscale decodeFailEnv freshState).1 = false :=
  ⟨by decide,
   c9_upscale_returns_false_on_every_failure_mode decodeFailEnv freshState (by decide)⟩

/-- C1: when the backend enhance call raises (for example a CUDA
out-of-memory during tile inference), the except handler of upscale returns
False while the upsampler still holds the per-call img tensor stored by
pre_process: the deletions of lines 218-222 and 240 sit inside the try
block, not in a finally, so the release of per-call buffers is not
unconditional and the session retains per-call state after the call. -/
theorem c1_enhance_failure_retains_backend_tensors :
    RealESRGANUpscaler.upscale enhanceFailEnv readyState =
      (false, ⟨some ⟨true, false⟩⟩) := by decide

/-- C5 counterexample: invoking upscale with every external step succeeding
on the state left by cleanup returns True — after cleanup the session is not
unusable. -/
theorem c5_counterexample_run_succeeds_after_cleanup :
    (RealESRGANUpscaler.upscale allOkEnv
      (RealESRGANUpscaler.cleanup readyState)).1 = true := by decide

/-- C5 amended: cleanup releases the backend (the upsampler reference
becomes None), but the session stays usable: the next upscale call lazily
rebuilds the upsampler via _load_upsampler and succeeds when every external
step succeeds. -/
theorem c5_amended_cleanup_releases_backend_session_reusable (st : SessionState) :
    (RealESRGANUpscaler.cleanup st).upsampler = none ∧
    (RealESRGANUpscaler.upscale allOkEnv (RealESRGANUpscaler.cleanup st)).1 = true :=
  ⟨rfl, rfl⟩

/-- C7: RealESRGANUpscaler.__init__ on a model identifier absent from
MODEL_CONFIGS raises ValueError having performed no filesystem or network
effect: the catalog check precedes the cache-directory mkdir. -/
theorem c7_unknown_model_fails_without_effects (model_name : String)
    (h : MODEL_CONFIGS.lookup model_name = none) :
    RealESRGANUpscaler.init model_name =
      (Except.error ("Unknown model: " ++ model_name), ([] : List Effect)) := by
  unfold RealESRGANUpscaler.init
  rw [h]

/-- Witness for C7 at the concrete identifier of the spec scenario. -/
theorem c7_unknown_model_witness :
    MODEL_CONFIGS.lookup ("not-a-real-model") = none ∧
    RealESRGANUpscaler.init ("not-a-real-model") =
      (Except.error ("Unknown model: " ++ "not-a-real-model"), ([] : List Effect)) :=
  ⟨by decide, c7_unknown_model_fails_without_effects ("not-a-real-model") (by decide)⟩

/-- C8: weight resolution is idempotent on success: whenever a first call of
_get_model_path succeeds with some path, a second call on the resulting
filesystem returns the same path as a cache hit, downloading nothing,
whatever the network does on the second call — the decision depends only on
the existence of the cached file. -/
theorem c8_get_model_path_idempotent (cache_dir model_name url : String)
    (fs : List String) (net1 net2 : Bool) (p : String) (fs2 : List String) (d : Bool)
    (h : RealESRGANUpscaler.get_model_path cache_dir model_name url fs net1 =
          Except.ok (p, fs2, d)) :
    RealESRGANUpscaler.get_model_path cache_dir model_name url fs2 net2 =
      Except.ok (p, fs2, false) := by
  unfold RealESRGANUpscaler.get_model_path at h ⊢
  by_cases hmem : weightsPath cache_dir model_name ∈ fs
  · simp only [hmem, if_pos] at h
    rcases h with h
    injection h with h
    rcases h with h
    simp only [Prod.mk.injEq] at h
    rcases h with ⟨hp, hfs, _⟩
    subst hp
    subst hfs
    simp [hmem]
  · simp only [hmem, if_neg, if_false] at h
    cases net1 with
    | false => simp at h
    | true =>
        simp only [if_pos] at h
        injection h with h
        simp only [Prod.mk.injEq] at h
        rcases h with ⟨hp, hfs, _⟩
        subst hp
        subst hfs
        have hmem2 : weightsPath cache_dir model_name ∈
            weightsPath cache_dir model_name :: fs := List.mem_cons_self _ _
        simp [hmem2]

/-- Witness for C8: resolving RealESRGAN_x4plus on an empty cache downloads
once; resolving again on the resulting cache is a hit with no download. -/
theorem c8_get_model_path_witness :
    RealESRGANUpscaler.get_model_path ("models") ("RealESRGAN_x4plus") ("u")
        ([]) true =
      Except.ok (("models/RealESRGAN_x4plus.pth"),
        [("models/RealESRGAN_x4plus.pth")], true) ∧
    RealESRGANUpscaler.get_model_path ("models") ("RealESRGAN_x4plus") ("u")
        ([("models/RealESRGAN_x4plus.pth")]) false =
      Except.ok (("models/RealESRGAN_x4plus.pth"),
        [("models/RealESRGAN_x4plus.pth")], false) :=
  ⟨rfl,
   c8_get_model_path_idempotent ("models") ("RealESRGAN_x4plus") ("u")
     ([]) true false ("models/RealESRGAN_x4plus.pth")
     ([("models/RealESRGAN_x4plus.pth")]) true rfl⟩

/-- C6: a request on a processor whose worker is running is rejected
immediately with the error emission, the worker slot is left untouched (the
in-flight call is not corrupted) and no new worker is queued or started;
both upscale_single and upscale_batch behave so. -/
theorem c6_busy_request_rejected_immediately (p : ImageProcessor)
    (h : p.isBusyCheck = true) :
    ImageProcessor.upscale_single p =
      (p, Dispatch.rejected ("Another operation is already running")) ∧
    ImageProcessor.upscale_batch p =
      (p, Dispatch.rejected ("Another operation is already running")) := by
  unfold ImageProcessor.upscale_single ImageProcessor.upscale_batch
  rw [h]
  exact ⟨rfl, rfl⟩

/-- Witness for C6 at a concrete busy processor. -/
theorem c6_busy_request_witness :
    (ImageProcessor.mk (some ⟨true⟩)).isBusyCheck = true ∧
    (ImageProcessor.upscale_single (ImageProcessor.mk (some ⟨true⟩)) =
      (ImageProcessor.mk (some ⟨true⟩),
        Dispatch.rejected ("Another operation is already running")) ∧
     ImageProcessor.upscale_batch (ImageProcessor.mk (some ⟨true⟩)) =
      (ImageProcessor.mk (some ⟨true⟩),
        Dispatch.rejected ("Another operation is already running"))) :=
  ⟨by decide, c6_busy_request_rejected_immediately (ImageProcessor.mk (some ⟨true⟩)) (by decide)⟩

/-- Helper: with no abort, the loop attempts every item in input order. -/
theorem batchLoop_attempted_of_none (d : String) :
    ∀ (items : List BatchItem) (idx : Nat),
      (batchLoop d items idx none).attempted = items.map BatchItem.name
  | [], _ => rfl
  | it :: rest, idx => by
      simp [batchLoop, batchLoop_attempted_of_none d rest (idx + 1)]

/-- Helper: with no abort, the loop counts exactly the successful items. -/
theorem batchLoop_success_count_of_none (d : String) :
    ∀ (items : List BatchItem) (idx : Nat),
      (batchLoop d items idx none).success_count =
        (items.filter (fun it => it.ok)).length
  | [], _ => rfl
  | it :: rest, idx => by
      cases h : it.ok <;>
        simp [batchLoop, List.filter_cons, h,
          batchLoop_success_count_of_none d rest (idx + 1)]

/-- Helper: with no abort, the loop never reports an abort. -/
theorem batchLoop_aborted_of_none (d : String) :
    ∀ (items : List BatchItem) (idx : Nat),
      (batchLoop d items idx none).aborted = false
  | [], _ => rfl
  | _ :: rest, idx => by
      simp [batchLoop, batchLoop_aborted_of_none d rest (idx + 1)]

/-- Helper: with no abort, appending one item to the batch appends its write
(when it succeeds) after all earlier writes. -/
theorem batchLoop_writes_append_last (d : String) (b : BatchItem) :
    ∀ (items : List BatchItem) (idx : Nat),
      (batchLoop d (items ++ [b]) idx none).writes =
        (batchLoop d items idx none).writes ++
          (if b.ok then [(outputFile d b, BatchItem.src b)] else [])
  | [], idx => by cases h : b.ok <;> simp [batchLoop, h]
  | it :: rest, idx => by
      cases h : it.ok <;>
        simp [batchLoop, h, batchLoop_writes_append_last d b rest (idx + 1)]

/-- Helper: the last write to a path determines its final content. -/
theorem lastWrite_append_singleton (ws : List (String × String)) (q v : String) :
    lastWrite (ws ++ [(q, v)]) q = some v := by
  induction ws with
  | nil => simp [lastWrite]
  | cons w rest ih => simp [lastWrite, ih]

/-- C2 counterexample: the terminal batch notification carries only the pair
(success_count, total): for the batch of five inputs whose third item is
unreadable it equals (4, 5) and is identical to the notification of a batch
whose failed third item bears a different name — no failed-name list is
reported, contrary to the claimed failed = [item_3_name]. -/
theorem c2_counterexample_no_failed_name_list :
    (BatchUpscaleWorker.run cleanBatchEnv ("out") fiveItemsA).finished =
      (BatchUpscaleWorker.run cleanBatchEnv ("out") fiveItemsB).finished ∧
    (BatchUpscaleWorker.run cleanBatchEnv ("out") fiveItemsA).finished = (4, 5) :=
  ⟨by decide, by decide⟩

/-- C2 amended: BatchUpscaleWorker.run processes every item even when some
fail — a failure leaves the success count unchanged and the loop continues —
and the final notification reports success_count equal to the number of
successful items and total_count equal to the batch size; the worker keeps
no list of failed item names. -/
theorem c2_amended_batch_continues_and_counts
    (benv : BatchEnv) (out_dir : String) (items : List BatchItem)
    (h1 : benv.initOk = true) (h2 : benv.abortAt = none) :
    (BatchUpscaleWorker.run benv out_dir items).attempted = items.map BatchItem.name ∧
    (BatchUpscaleWorker.run benv out_dir items).finished =
      ((items.filter (fun it => it.ok)).length, items.length) := by
  unfold BatchUpscaleWorker.run
  rw [h1, h2]
  simp [batchLoop_aborted_of_none, batchLoop_attempted_of_none,
    batchLoop_success_count_of_none]

/-- Witness for C2 amended at the five-input batch with unreadable third
item: all five attempted, final notification (4, 5). -/
theorem c2_amended_witness :
    (cleanBatchEnv.initOk = true ∧ cleanBatchEnv.abortAt = none) ∧
    ((BatchUpscaleWorker.run cleanBatchEnv ("out") fiveItemsA).attempted =
        fiveItemsA.map BatchItem.name ∧
     (BatchUpscaleWorker.run cleanBatchEnv ("out") fiveItemsA).finished =
        ((fiveItemsA.filter (fun it => it.ok)).length, fiveItemsA.length)) :=
  ⟨⟨rfl, rfl⟩,
   c2_amended_batch_continues_and_counts cleanBatchEnv ("out") fiveItemsA rfl rfl⟩

/-- C3 counterexample: when an exception aborts the batch loop (here while
processing item index 1), BatchUpscaleWorker.run reaches its except handler
and the upscaler.cleanup() call — inside the try block, not in a finally —
is skipped: dispose is invoked zero times on that exit path, not once. -/
theorem c3_counterexample_batch_abort_skips_cleanup :
    (BatchUpscaleWorker.run abortedBatchEnv ("out") threeItems).cleanupCalled = false := by
  decide

/-- C3 amended: the CLI command invokes cleanup exactly once on every exit
path after the session is constructed (success, failure return and
KeyboardInterrupt alike, via try/finally); the batch worker invokes cleanup
when — and only on paths where — its loop completes without an aborting
exception. -/
theorem c3_amended_cli_always_batch_on_normal_completion
    (cenv : CliEnv) (st : SessionState)
    (benv : BatchEnv) (out_dir : String) (items : List BatchItem)
    (h1 : cenv.inputExists = true) (h2 : cenv.inputIsFile = true)
    (h3 : benv.initOk = true) (h4 : benv.abortAt = none) :
    (upscale_command cenv st).cleanupCalls = 1 ∧
    (BatchUpscaleWorker.run benv out_dir items).cleanupCalled = true := by
  constructor
  · unfold upscale_command
    rw [h1, h2]
    cases hI : cenv.interrupted <;>
      cases hU : (RealESRGANUpscaler.upscale cenv.runEnv st).1 <;> simp [hI, hU]
  · unfold BatchUpscaleWorker.run
    rw [h3, h4]
    simp [batchLoop_aborted_of_none]

/-- Witness for C3 amended at a concrete successful CLI call and a concrete
abort-free batch. -/
theorem c3_amended_witness :
    (cliOkEnv.inputExists = true ∧ cliOkEnv.inputIsFile = true ∧
     cleanBatchEnv.initOk = true ∧ cleanBatchEnv.abortAt = none) ∧
    ((upscale_command cliOkEnv readyState).cleanupCalls = 1 ∧
     (BatchUpscaleWorker.run cleanBatchEnv ("out") threeItems).cleanupCalled = true) :=
  ⟨⟨rfl, rfl, rfl, rfl⟩,
   c3_amended_cli_always_batch_on_normal_completion cliOkEnv readyState
     cleanBatchEnv ("out") threeItems rfl rfl rfl rfl⟩

/-- C10: the derived output path of a batch item is output_dir joined with
stem ++ "_upscaled" ++ suffix of its filename, hence depends only on the
filename: two inputs with the same filename in different directories share
one output path, and when the later of the two succeeds as the final item
its result is what that path holds — it overwrites the earlier result. -/
theorem c10_derived_output_path_and_overwrite (output_dir : String)
    (a b : BatchItem) (items : List BatchItem) (benv : BatchEnv)
    (hname : a.name = b.name) (hok : b.ok = true)
    (h1 : benv.initOk = true) (h2 : benv.abortAt = none) :
    outputFile output_dir a =
      output_dir ++ "/" ++ Pathlib.stem a.name ++ "_upscaled" ++ Pathlib.suffix a.name ∧
    outputFile output_dir a = outputFile output_dir b ∧
    lastWrite (BatchUpscaleWorker.run benv output_dir (items ++ [b])).writes
        (outputFile output_dir a) = some (BatchItem.src b) := by
  have hout : outputFile output_dir a = outputFile output_dir b := by
    unfold outputFile
    rw [hname]
  have hw : (BatchUpscaleWorker.run benv output_dir (items ++ [b])).writes =
      (batchLoop output_dir items 0 none).writes ++
        [(outputFile output_dir b, BatchItem.src b)] := by
    unfold BatchUpscaleWorker.run
    rw [h1, h2]
    simp [batchLoop_aborted_of_none, batchLoop_writes_append_last, hok]
  refine ⟨rfl, hout, ?_⟩
  rw [hw, hout]
  exact lastWrite_append_singleton _ _ _

/-- Witness for C10: two items named x.png from dir1 and dir2; the shared
output path finally holds the dir2 item's result. -/
theorem c10_output_path_witness :
    (itemX1.name = itemX2.name ∧ itemX2.ok = true ∧
     cleanBatchEnv.initOk = true ∧ cleanBatchEnv.abortAt = none) ∧
    (outputFile ("out") itemX1 =
        ("out") ++ "/" ++ Pathlib.stem itemX1.name ++ "_upscaled" ++ Pathlib.suffix itemX1.name ∧
     outputFile ("out") itemX1 = outputFile ("out") itemX2 ∧
     lastWrite (BatchUpscaleWorker.run cleanBatchEnv ("out") ([itemX1] ++ [itemX2])).writes
        (outputFile ("out") itemX1) = some (BatchItem.src itemX2)) :=
  ⟨⟨rfl, rfl, rfl, rfl⟩,
   c10_derived_output_path_and_overwrite ("out") itemX1 itemX2 ([itemX1])
     cleanBatchEnv rfl rfl rfl rfl⟩

/-- Helper: for a positive tile size, every source coordinate j < W lies in
the core region of exactly one tile, the tile of index j / t. -/
theorem tile_index_exists_unique (W t j : Nat) (ht : 0 < t) (hj : j < W) :
    ∃! x, x < tileCount W t ∧ coreStart t x ≤ j ∧ j < coreEnd W t x := by
  have ht0 : t ≠ 0 := Nat.pos_iff_ne_zero.mp ht
  refine ⟨j / t, ⟨?_, ?_, ?_⟩, ?_⟩
  · simp only [tileCount, numTiles, if_neg ht0]
    have h1 : W + t - 1 = (W - 1) + t := by omega
    rw [h1, Nat.add_div_right _ ht]
    have h2 : j / t ≤ (W - 1) / t := Nat.div_le_div_right (by omega)
    omega
  · simp only [coreStart, if_neg ht0]
    exact Nat.div_mul_le_self j t
  · simp only [coreEnd, if_neg ht0]
    refine lt_min ?_ hj
    exact (Nat.div_lt_iff_lt_mul ht).mp (Nat.lt_succ_self _)
  · rintro y ⟨_, hy2, hy3⟩
    simp only [coreStart, coreEnd, if_neg ht0] at hy2 hy3
    have hy4 : j < (y + 1) * t := lt_of_lt_of_le hy3 (min_le_left _ _)
    exact (Nat.div_eq_of_lt_le hy2 hy4).symm

/-- Helper: for every tile size (zero meaning a single whole-image tile) and
every positive model scale s, each output coordinate i < s * W lies in the
scaled, post-trim core region of exactly one tile. -/
theorem tile_cover_unique (W t s i : Nat) (hs : 0 < s) (hi : i < s * W) :
    ∃! x, x < tileCount W t ∧ s * coreStart t x ≤ i ∧ i < s * coreEnd W t x := by
  rcases Nat.eq_zero_or_pos t with ht | ht
  · subst ht
    refine ⟨0, ⟨?_, ?_, ?_⟩, ?_⟩
    · simp [tileCount]
    · simp [coreStart]
    · simpa [coreEnd] using hi
    · rintro y ⟨hy1, _, _⟩
      have hy1' : y < 1 := by simpa [tileCount] using hy1
      omega
  · have hW : 0 < W := by
      rcases Nat.eq_zero_or_pos W with hW0 | hW0
      · subst hW0
        simp at hi
      · exact hW0
    have hjW : i / s < W := (Nat.div_lt_iff_lt_mul hs).mpr (by
      calc i < s * W := hi
        _ = W * s := Nat.mul_comm s W)
    obtain ⟨x, ⟨hx1, hx2, hx3⟩, huniq⟩ := tile_index_exists_unique W t (i / s) ht hjW
    refine ⟨x, ⟨hx1, ?_, ?_⟩, ?_⟩
    · rw [Nat.mul_comm]
      exact (Nat.le_div_iff_mul_le hs).mp hx2
    · calc i < (coreEnd W t x) * s := (Nat.div_lt_iff_lt_mul hs).mp hx3
        _ = s * coreEnd W t x := Nat.mul_comm _ _
    · rintro y ⟨hy1, hy2, hy3⟩
      refine huniq y ⟨hy1, ?_, ?_⟩
      · refine (Nat.le_div_iff_mul_le hs).mpr ?_
        rw [Nat.mul_comm]
        exact hy2
      · refine (Nat.div_lt_iff_lt_mul hs).mpr ?_
        calc i < s * coreEnd W t y := hy3
          _ = (coreEnd W t y) * s := Nat.mul_comm _ _

/-- Helper: a unique index in each axis gives a unique index pair. -/
theorem existsUnique_pair {P Q : Nat → Prop} (hP : ∃! x, P x) (hQ : ∃! y, Q y) :
    ∃! q : Nat × Nat, P q.1 ∧ Q q.2 := by
  obtain ⟨x, hx, hxu⟩ := hP
  obtain ⟨y, hy, hyu⟩ := hQ
  refine ⟨(x, y), ⟨hx, hy⟩, ?_⟩
  rintro ⟨u, v⟩ ⟨hu, hv⟩
  have h1 : u = x := hxu u hu
  have h2 : v = y := hyu v hv
  rw [h1, h2]

/-- Helper: the final output dimensions equal round(outscale * W) by
round(outscale * H) in both branches of finalDims — when the requested
outscale equals the intrinsic scale the stitched size s*W is already the
rounded value, and otherwise the resample step produces it by definition. -/
theorem finalDims_eq_round (W H s : Nat) (oscale : ℚ) :
    finalDims W H s oscale = (round (oscale * (W : ℚ)), round (oscale * (H : ℚ))) := by
  unfold finalDims
  split
  · rename_i h
    rw [h]
    have hw : ((s : ℚ)) * (W : ℚ) = (((s * W : ℕ) : ℚ)) := by push_cast; ring
    have hh : ((s : ℚ)) * (H : ℚ) = (((s * H : ℕ) : ℚ)) := by push_cast; ring
    rw [hw, hh, round_natCast, round_natCast]
  · rfl

/-- C4: for every image of dimensions W x H with W, H at least 1, every
positive intrinsic model scale s, every requested outscale and every tile
size t (zero or positive, evenly or unevenly dividing the image), the
spec-modelled tiled upscaler yields output dimensions exactly
round(outscale * W) by round(outscale * H), and every output pixel of the
stitched s-scaled image lies in the post-trim contribution of exactly one
tile of the grid — no double-blended seams, no gaps. -/
theorem c4_tiled_dims_and_unique_tile_cover
    (W H t s : Nat) (oscale : ℚ) (hW : 1 ≤ W) (hH : 1 ≤ H) (hs : 1 ≤ s) :
    finalDims W H s oscale = (round (oscale * (W : ℚ)), round (oscale * (H : ℚ))) ∧
    ∀ i j, i < s * W → j < s * H →
      ∃! q : Nat × Nat,
        (q.1 < tileCount W t ∧ s * coreStart t q.1 ≤ i ∧ i < s * coreEnd W t q.1) ∧
        (q.2 < tileCount H t ∧ s * coreStart t q.2 ≤ j ∧ j < s * coreEnd H t q.2) := by
  refine ⟨finalDims_eq_round W H s oscale, ?_⟩
  intro i j hi hj
  exact existsUnique_pair (tile_cover_unique W t s i hs hi)
    (tile_cover_unique H t s j hs hj)

/-- Witness for C4 at the spec scenario: a 512 x 512 input, tile size 400,
intrinsic scale 4, outscale 4. -/
theorem c4_tiled_witness :
    (1 ≤ 512 ∧ 1 ≤ 512 ∧ 1 ≤ 4) ∧
    (finalDims 512 512 4 (4 : ℚ) =
        (round ((4 : ℚ) * ((512 : Nat) : ℚ)), round ((4 : ℚ) * ((512 : Nat) : ℚ))) ∧
     ∀ i j, i < 4 * 512 → j < 4 * 512 →
      ∃! q : Nat × Nat,
        (q.1 < tileCount 512 400 ∧ 4 * coreStart 400 q.1 ≤ i ∧ i < 4 * coreEnd 512 400 q.1) ∧
        (q.2 < tileCount 512 400 ∧ 4 * coreStart 400 q.2 ≤ j ∧ j < 4 * coreEnd 512 400 q.2)) :=
  ⟨⟨by norm_num, by norm_num, by norm_num⟩,
   c4_tiled_dims_and_unique_tile_cover 512 512 400 4 (4 : ℚ)
     (by norm_num) (by norm_num) (by norm_num)⟩
